import Mathlib

/-!
Shallow embedding of the session / consistency / cursor core of the
repository (`src/src/github_status/main.go`), the client driver for a
replicated document database.  Go machine integers are modelled as `Int`
with explicit 32-bit truncation (`int32cast`) wherever the source converts
to `int32`.  Collaborators that are out of scope for the source tree
(socket wire transfer, the cluster, the document codec) appear as explicit
outcome parameters or as definitions marked `Modelled from the spec:`.
-/

namespace Stats

/-- Go `int32(n)` applied to an arbitrary integer: two's-complement
truncation to 32 bits. -/
def int32cast (n : Int) : Int :=
  (n + 2 ^ 31) % 2 ^ 32 - 2 ^ 31

/-- `math.MinInt32`. -/
def minInt32 : Int := -(2 ^ 31)

/-- `math.MaxInt32`. -/
def maxInt32 : Int := 2 ^ 31 - 1

/-! ### Write-acknowledgement spec (`Safe`, `getLastError`, `Session.ensureSafe`) -/

/-- The dynamic value stored in the `W interface{}` field of the
`getLastError` command: either a named write mode (Go `string`) or a
numeric replica threshold (Go `int`). -/
inductive WValue where
  | wMode (s : String)
  | wNum (n : Int)
deriving Repr, DecidableEq

/-- The `Safe` structure (main.go lines 1314-1320). -/
structure Safe where
  W : Int
  WMode : String
  WTimeout : Int
  FSync : Bool
  J : Bool
deriving Repr, DecidableEq

/-- The `getLastError` command document (lines 221-227); the constant
`CmdName` field is omitted.  `W = none` models a nil `interface{}`. -/
structure GetLastErrorCmd where
  W : Option WValue
  WTimeout : Int
  FSync : Bool
  J : Bool
deriving Repr, DecidableEq

/-- The `queryOp` stored in `Session.safeOp` by `ensureSafe`
(lines 1476-1480): the command plus its collection and wire limit. -/
structure SafeQueryOp where
  query : GetLastErrorCmd
  collection : String
  limit : Int
deriving Repr, DecidableEq

/-- The local `w interface{}` computed at the top of `ensureSafe`
(lines 1446-1451). -/
def safeW (safe : Safe) : Option WValue :=
  if safe.WMode ≠ "" then some (.wMode safe.WMode)
  else if safe.W > 0 then some (.wNum safe.W)
  else none

/-- The merge of the `W` field in the non-nil branch of `ensureSafe`
(lines 1459-1465). -/
def mergeW (cur : Option WValue) (safe : Safe) : Option WValue :=
  match cur with
  | none => safeW safe
  | some (.wMode m) =>
      if safe.WMode ≠ "" then some (.wMode safe.WMode) else some (.wMode m)
  | some (.wNum i) =>
      if safe.WMode ≠ "" then some (.wMode safe.WMode)
      else if safe.W > i then some (.wNum safe.W)
      else some (.wNum i)

/-- `Session.ensureSafe` (lines 1441-1481) acting on the session's
`safeOp` field.  `none` for the `safe` argument is a nil `*Safe`
(the call returns with no change); `none` for the state is a session
with no configured acknowledgement spec. -/
def ensureSafe (st : Option SafeQueryOp) (safe : Option Safe) : Option SafeQueryOp :=
  match safe with
  | none => st
  | some sf =>
    let cmd : GetLastErrorCmd :=
      match st with
      | none => { W := safeW sf, WTimeout := sf.WTimeout, FSync := sf.FSync, J := sf.J }
      | some op =>
        let prev := op.query
        { W := mergeW prev.W sf
          WTimeout :=
            if sf.WTimeout > 0 ∧ sf.WTimeout < prev.WTimeout then sf.WTimeout
            else prev.WTimeout
          FSync := if sf.FSync then true else prev.FSync
          J :=
            if sf.FSync then false
            else if sf.J ∧ ¬ prev.FSync then true
            else prev.J }
    some { query := cmd, collection := "admin.$cmd", limit := -1 }

/-- A whole sequence of `EnsureSafe` calls, in order. -/
def ensureSafeRun (st : Option SafeQueryOp) (l : List (Option Safe)) : Option SafeQueryOp :=
  l.foldl ensureSafe st

/-- The state of a freshly constructed session: `newSession`
(lines 465-473) calls `SetSafe(&Safe{})`, i.e. `ensureSafe` from a nil
`safeOp` with the zero `Safe`. -/
def initialSafeOp : Option SafeQueryOp :=
  ensureSafe none (some { W := 0, WMode := "", WTimeout := 0, FSync := false, J := false })

/-- The numeric replica threshold currently merged in, if any. -/
def cmdNumW (st : Option SafeQueryOp) : Option Int :=
  match st with
  | some op =>
    match op.query.W with
    | some (.wNum i) => some i
    | _ => none
  | none => none

/-- The named write mode currently merged in, if any. -/
def cmdMode (st : Option SafeQueryOp) : Option String :=
  match st with
  | some op =>
    match op.query.W with
    | some (.wMode m) => some m
    | _ => none
  | none => none

/-- The merged `FSync` flag (`false` when no spec is configured). -/
def cmdFSync (st : Option SafeQueryOp) : Bool :=
  match st with
  | some op => op.query.FSync
  | none => false

/-- The merged `J` (group-commit) flag. -/
def cmdJ (st : Option SafeQueryOp) : Bool :=
  match st with
  | some op => op.query.J
  | none => false

/-- The merged timeout, when a spec is configured. -/
def cmdWTimeout (st : Option SafeQueryOp) : Option Int :=
  match st with
  | some op => some op.query.WTimeout
  | none => none

/-! ### `Query.Limit`, `Query.Batch`, `Session.SetBatch` -/

/-- The pair of limit fields set by `Query.Limit`: the client-visible
`q.limit` and the wire `q.op.limit` (both Go `int32`). -/
structure QueryLimits where
  limit : Int
  opLimit : Int
deriving Repr, DecidableEq

/-- `Query.Limit` (lines 2000-2018). -/
def queryLimit (n : Int) : QueryLimits :=
  if n = 1 then { limit := 1, opLimit := -1 }
  else if n = minInt32 then { limit := maxInt32, opLimit := minInt32 + 1 }
  else if n < 0 then { limit := int32cast (-n), opLimit := int32cast n }
  else { limit := int32cast n, opLimit := int32cast n }

/-- `Query.Batch` (lines 1958-1967) and `Session.SetBatch`
(lines 1284-1292): both replace an argument of 1 by 2 and store the
result as the `int32` wire batch size (`op.limit`). -/
def batchStore (n : Int) : Int :=
  int32cast (if n = 1 then 2 else n)

/-! ### Safe-write coordinator (`Collection.writeQuery`) -/

/-- Operations observable on the wire for the claims below. -/
inductive WireOp where
  | writeOp
  | getLastErrorOp (collection : String)
  | killCursorsOp (cursorId : Int)
deriving Repr, DecidableEq

/-- What one `writeQuery` call does, as seen from the outside: the
`slaveOk` flag it passes to socket acquisition, the operations it sends
(all on the one acquired socket, in order), and whether it blocks until
the acknowledgement reply arrives. -/
structure WriteDispatch where
  acquireSlaveOk : Bool
  sent : List WireOp
  blocksForReply : Bool
deriving Repr, DecidableEq

/-- `Collection.writeQuery` (lines 3336-3387).  With no configured spec
the mutating operation is sent alone and the call returns at once; with a
spec, a copy of `safeOp` with its collection overridden to
`dbname + ".$cmd"` is sent together with the write on the same socket,
and the call blocks on a mutex released by the private reply callback. -/
def writeQuery (dbname : String) (safeOp : Option SafeQueryOp) : WriteDispatch :=
  match safeOp with
  | none =>
    { acquireSlaveOk := dbname = "local", sent := [.writeOp], blocksForReply := false }
  | some op =>
    let query := { op with collection := dbname ++ ".$cmd" }
    { acquireSlaveOk := dbname = "local"
      sent := [.writeOp, .getLastErrorOp query.collection]
      blocksForReply := true }

/-! ### Consistency state machine and connection binding -/

/-- The session consistency modes (lines 171-177). -/
inductive Mode where
  | Eventual
  | Monotonic
  | Strong
deriving Repr, DecidableEq

/-- The socket-reservation slice of the `Session` (lines 182-196);
sockets are identified by an id. -/
structure SessionSockets where
  masterSocket : Option Nat
  slaveSocket : Option Nat
  slaveOk : Bool
  consistency : Mode
deriving Repr, DecidableEq

/-- `Session.SetMode` (lines 1217-1230).  Returns the new state together
with the socket ids released by `unsetSocket` (lines 3285-3294). -/
def setMode (s : SessionSockets) (consistency : Mode) (refresh : Bool) :
    SessionSockets × List Nat :=
  let s1 := { s with consistency := consistency }
  if refresh then
    ({ s1 with
        slaveOk := consistency ≠ .Strong
        masterSocket := none
        slaveSocket := none },
      s1.masterSocket.toList ++ s1.slaveSocket.toList)
  else if consistency = .Strong then ({ s1 with slaveOk := false }, [])
  else if s1.masterSocket = none then ({ s1 with slaveOk := true }, [])
  else (s1, [])

/-- Where `Session.acquireSocket` gets its socket from. -/
inductive SocketSource where
  | reservedMaster (id : Nat)
  | reservedSlave (id : Nat)
  | fromCluster (preferSecondary : Bool)
deriving Repr, DecidableEq

/-- The socket-selection logic of `Session.acquireSocket`
(lines 3207-3266): a reserved master always wins; a reserved slave is
used only if both the session and the caller allow a secondary;
otherwise the cluster collaborator is asked with the combined
`slaveOk && s.slaveOk` preference. -/
def acquireSocketSource (s : SessionSockets) (slaveOk : Bool) : SocketSource :=
  match s.masterSocket with
  | some id => .reservedMaster id
  | none =>
    match s.slaveSocket with
    | some id =>
      if s.slaveOk ∧ slaveOk then .reservedSlave id
      else .fromCluster (slaveOk ∧ s.slaveOk)
    | none => .fromCluster (slaveOk ∧ s.slaveOk)

/-- Modelled from the spec: the `Cluster` collaborator (its source is not
in the tree) exposes `AcquireSocket(preferSecondary, ...)`; when
`preferSecondary` is false it hands out a socket to the primary. -/
def clusterGivesPrimary (preferSecondary : Bool) : Bool :=
  ¬ preferSecondary

/-! ### Cursor iterator (`Iter`) -/

/-- The driver error values the cursor claims distinguish. -/
inductive MgoError where
  | errNotFound
  | queryError (msg : String) (code : Int)
  | other (msg : String)
deriving Repr, DecidableEq

/-- The slice of the `Iter` state (lines 229-243) the claims are about.
Documents in the FIFO queue are opaque ids; `timeout` is in nanoseconds
with any negative value meaning "no timeout" (a plain `Iter` uses -1,
`Tail` stores the caller's duration). -/
structure IterState where
  docData : List Nat
  err : Option MgoError
  cursorId : Int
  limit : Int
  opLimit : Int
  docsToReceive : Int
  docsBeforeMore : Int
  timeout : Int
  timedout : Bool
deriving Repr, DecidableEq

/-- Outcome of one socket interaction performed inside the iterator
(socket acquisition followed by sending one operation): the collaborator
side of `Iter.acquireSocket` and `socket.Query`. -/
inductive SocketAttempt where
  | acquireFailed (e : MgoError)
  | queryFailed (e : MgoError)
  | sent
deriving Repr, DecidableEq

/-- Result of `Iter.killCursor`: the new state, the error returned by the
call, and the kill requests actually sent on the wire. -/
structure KillResult where
  st : IterState
  ret : Option MgoError
  killRequests : List Int
deriving Repr, DecidableEq

/-- `Iter.killCursor` (lines 2524-2539): with a zero cursor id it is a
no-op; otherwise it sends one `killCursorsOp`, records a failure in
`iter.err` only when that field still holds nil or the not-found
sentinel, and zeroes the cursor id unconditionally. -/
def killCursor (st : IterState) (attempt : SocketAttempt) : KillResult :=
  if st.cursorId ≠ 0 then
    let failure : Option MgoError :=
      match attempt with
      | .acquireFailed e => some e
      | .queryFailed e => some e
      | .sent => none
    let sentReqs : List Int :=
      match attempt with
      | .acquireFailed _ => []
      | _ => [st.cursorId]
    let newErr :=
      if failure.isSome ∧ (st.err = none ∨ st.err = some .errNotFound) then failure
      else st.err
    { st := { st with err := newErr, cursorId := 0 }, ret := failure, killRequests := sentReqs }
  else
    { st := st, ret := none, killRequests := [] }

/-- Result of `Iter.Close`. -/
structure CloseResult where
  st : IterState
  ret : Option MgoError
  killRequests : List Int
deriving Repr, DecidableEq

/-- `Iter.Close` (lines 2513-2522): kill the cursor, then report the
terminal error with the not-found sentinel suppressed to success. -/
def iterClose (st : IterState) (attempt : SocketAttempt) : CloseResult :=
  let k := killCursor st attempt
  { st := k.st
    ret := if k.st.err = some .errNotFound then none else k.st.err
    killRequests := k.killRequests }

/-- `Iter.Err` (lines 2488-2496). -/
def iterErr (st : IterState) : Option MgoError :=
  if st.err = some .errNotFound then none else st.err

/-- `Iter.Timeout` (lines 2544-2549). -/
def iterTimeout (st : IterState) : Bool :=
  st.timedout

/-- `Iter.getMore` (lines 2761-2782): acquire a socket (failure latches
the error and returns), shrink the wire limit when a client-side limit is
active, send the getMore (failure latches the error), and count one more
outstanding batch. -/
def getMore (st : IterState) (attempt : SocketAttempt) : IterState :=
  match attempt with
  | .acquireFailed e => { st with err := some e }
  | _ =>
    let st1 :=
      if st.limit > 0 then
        let lim := int32cast (st.limit - int32cast st.docsToReceive -
          int32cast (st.docData.length : Int))
        if lim < st.opLimit then { st with opLimit := lim } else st
      else st
    let st2 :=
      match attempt with
      | .queryFailed e => { st1 with err := some e }
      | _ => st1
    { st2 with docsToReceive := st2.docsToReceive + 1 }

/-- What one `Iter.Next` call reports. -/
inductive NextResult where
  | yielded (doc : Nat)
  | noMore
  | panicked (remaining : Nat)
  | unreachable
deriving Repr, DecidableEq

/-- Result of the tail of `Iter.Next`: the report, the new state, and the
kill requests sent. -/
structure NextStep where
  result : NextResult
  st : IterState
  killRequests : List Int
deriving Repr, DecidableEq

/-- The prefetch block of `Iter.Next` (lines 2607-2612) followed by the
successful return: with a live cursor and no error, request the next
batch when `docsBeforeMore` hits zero, then count down (going negative).
Unmarshalling and the embedded-error scan of the yielded document
(lines 2614-2631) are outside this slice. -/
def nextYieldTail (st : IterState) (doc : Nat) (gmAttempt : SocketAttempt)
    (kills : List Int) : NextStep :=
  let st1 :=
    if st.cursorId ≠ 0 ∧ st.err = none then
      let st2 := if st.docsBeforeMore = 0 then getMore st gmAttempt else st
      { st2 with docsBeforeMore := st2.docsBeforeMore - 1 }
    else st
  { result := .yielded doc, st := st1, killRequests := kills }

/-- The body of `Iter.Next` after the wait loop (lines 2594-2644): pop
the queue; with a client-side limit active, count it down, and on
exhaustion panic if data remains queued, otherwise latch the not-found
sentinel and force a cursor kill; an empty queue reports the terminal
error or latches not-found on a dead cursor. -/
def nextAfterWait (st0 : IterState) (killAttempt gmAttempt : SocketAttempt) : NextStep :=
  match st0.docData with
  | doc :: rest =>
    let st1 := { st0 with docData := rest }
    if st1.limit > 0 then
      let st2 := { st1 with limit := st1.limit - 1 }
      if st2.limit = 0 then
        if st2.docData.length > 0 then
          { result := .panicked st2.docData.length, st := st2, killRequests := [] }
        else
          let st3 := { st2 with err := some .errNotFound }
          let k := killCursor st3 killAttempt
          if k.ret.isSome then
            { result := .noMore, st := k.st, killRequests := k.killRequests }
          else
            nextYieldTail k.st doc gmAttempt k.killRequests
      else
        nextYieldTail st2 doc gmAttempt []
    else
      nextYieldTail st1 doc gmAttempt []
  | [] =>
    if st0.err.isSome then
      { result := .noMore, st := st0, killRequests := [] }
    else if st0.cursorId = 0 then
      { result := .noMore, st := { st0 with err := some .errNotFound }, killRequests := [] }
    else
      { result := .unreachable, st := st0, killRequests := [] }

/-- The guard of the wait loop of `Iter.Next` (line 2576): keep waiting
while no error is latched, the queue is empty, and either a batch is
outstanding or the server cursor is alive. -/
def nextLoopGuard (st : IterState) : Prop :=
  st.err = none ∧ st.docData = [] ∧ (st.docsToReceive > 0 ∨ st.cursorId ≠ 0)

instance (st : IterState) : Decidable (nextLoopGuard st) := by
  unfold nextLoopGuard; infer_instance

/-- The entry of `Iter.Next` (line 2574): the timed-out flag is cleared
before anything else. -/
def nextEntry (st : IterState) : IterState :=
  { st with timedout := false }

/-- The deadline check inside the wait loop (lines 2577-2587): with no
batch outstanding and a finite (non-negative) timeout, once the absolute
deadline has passed (`expired`, standing for `time.Now().After(timeout)`)
the call records the timeout and returns false; otherwise the loop goes
on to request more data and wait. -/
def nextTimeoutCheck (st : IterState) (expired : Bool) : Option (Bool × IterState) :=
  if st.docsToReceive = 0 ∧ 0 ≤ st.timeout ∧ expired then
    some (false, { st with timedout := true })
  else
    none

/-! ### Index cache (`parseIndexKey`, `EnsureIndex`, `DropIndex`) -/

/-- The dynamic `order interface{}` of `parseIndexKey`: an integer
direction or an index-kind string. -/
inductive IndexOrd where
  | num (n : Int)
  | str (s : String)
deriving Repr, DecidableEq

/-- Index of the first occurrence of a character, as `strings.Index`. -/
def charIndex (s : List Char) (c : Char) : Option Nat :=
  match s with
  | [] => none
  | a :: rest => if a = c then some 0 else (charIndex rest c).map (· + 1)

/-- Go `order != kind` where `order` is an `interface{}` and `kind` a
string: an integer never equals a string. -/
def ordNeKind (o : IndexOrd) (kind : String) : Bool :=
  match o with
  | .num _ => true
  | .str s => s ≠ kind

/-- Processing of one key field inside `parseIndexKey` (lines 820-865):
returns the text appended to the canonical name, the transformed field
name, and its order token. -/
def parseOneField (field0 : String) : Except String (String × String × IndexOrd) :=
  let cs := field0.toList
  let kindStep : String × List Char × String :=
    match cs with
    | '$' :: _ =>
      match charIndex cs ':' with
      | some c =>
        if 1 < c ∧ c < cs.length - 1 then
          let kind := String.mk ((cs.drop 1).take (c - 1))
          let rest := cs.drop (c + 1)
          (kind, rest, String.mk rest ++ "_" ++ kind)
        else ("", cs, "")
      | none => ("", cs, "")
    | _ => ("", cs, "")
  let kind := kindStep.1
  let cs1 := kindStep.2.1
  let frag1 := kindStep.2.2
  let switched : Option (String × String × IndexOrd) :=
    match cs1 with
    | [] => none
    | '$' :: _ => some (frag1, "", .num 1)
    | '@' :: rest =>
      some (frag1 ++ String.mk rest ++ "_2d", String.mk rest, .str "2d")
    | '-' :: rest =>
      some (frag1 ++ String.mk rest ++ "_-1", String.mk rest, .num (-1))
    | '+' :: rest =>
      if kind = "" then
        some (frag1 ++ String.mk rest ++ "_1", String.mk rest, .num 1)
      else
        some (frag1, String.mk rest, .str kind)
    | _ =>
      if kind = "" then
        some (frag1 ++ String.mk cs1 ++ "_1", String.mk cs1, .num 1)
      else
        some (frag1, String.mk cs1, .str kind)
  match switched with
  | none => .error ("Invalid index key: " ++ field0)
  | some (frag, fieldOut, ord) =>
    if fieldOut = "" ∨ (kind ≠ "" ∧ ordNeKind ord kind) then
      .error ("Invalid index key: " ++ field0)
    else
      .ok (frag, fieldOut, ord)

/-- The field loop of `parseIndexKey`: fields are separated by an
underscore in the canonical name. -/
def parseIndexKeyAux (fields : List String) (name : String)
    (realKey : List (String × IndexOrd)) :
    Except String (String × List (String × IndexOrd)) :=
  match fields with
  | [] => .ok (name, realKey)
  | f :: rest =>
    let name1 := if name ≠ "" then name ++ "_" else name
    match parseOneField f with
    | .error e => .error e
    | .ok (frag, fieldOut, ord) =>
      parseIndexKeyAux rest (name1 ++ frag) (realKey ++ [(fieldOut, ord)])

/-- `parseIndexKey` (lines 818-870): the canonical index name and the
transformed key list. -/
def parseIndexKey (key : List String) :
    Except String (String × List (String × IndexOrd)) :=
  match parseIndexKeyAux key "" [] with
  | .error e => .error e
  | .ok (name, realKey) =>
    if name = "" then .error "Invalid index key: no fields provided"
    else .ok (name, realKey)

/-- The NUL byte separating namespace and index name in the cache key. -/
def nulSep : String := String.mk ['\x00']

/-- Outcome of one `EnsureIndex` / `DropIndex` call: the updated index
cache (modelled from the spec: the cluster's `HasCachedIndex` /
`CacheIndex` collaborators, whose source is not in the tree, behave as a
set of cache keys), the number of network requests the call issued, and
whether it succeeded. -/
structure IndexCallResult where
  cache : List String
  requests : Nat
  ok : Bool
deriving Repr, DecidableEq

/-- `Collection.EnsureIndex` (lines 955-993): a cache hit skips the
network entirely; otherwise one `system.indexes` insert is issued
(`insertSucceeds` is the collaborator outcome) and only a successful
creation populates the cache. -/
def ensureIndex (cache : List String) (fullName : String) (key : List String)
    (insertSucceeds : Bool) : IndexCallResult :=
  match parseIndexKey key with
  | .error _ => { cache := cache, requests := 0, ok := false }
  | .ok (name, _) =>
    let cacheKey := fullName ++ nulSep ++ name
    if cacheKey ∈ cache then { cache := cache, requests := 0, ok := true }
    else if insertSucceeds then
      { cache := cacheKey :: cache, requests := 1, ok := true }
    else
      { cache := cache, requests := 1, ok := false }

/-- `Collection.DropIndex` (lines 1006-1033): the cache entry is evicted
before the `dropIndexes` command is run, so even a failed drop leaves the
entry gone. -/
def dropIndex (cache : List String) (fullName : String) (key : List String)
    (dropSucceeds : Bool) : IndexCallResult :=
  match parseIndexKey key with
  | .error _ => { cache := cache, requests := 0, ok := false }
  | .ok (name, _) =>
    let cacheKey := fullName ++ nulSep ++ name
    { cache := cache.filter (fun k => k ≠ cacheKey), requests := 1, ok := dropSucceeds }

/-! ### Connection string (`parseURL`, the option loop of `DialWithTimeout`) -/

/-- `isOptSep` (lines 421-423). -/
def isOptSep (c : Char) : Bool :=
  c = ';' || c = '&'

/-- Whether the first character list starts with the second (Go
`strings.HasPrefix`), by structural recursion so that concrete inputs
evaluate. -/
def startsWithChars : List Char → List Char → Bool
  | _, [] => true
  | [], _ :: _ => false
  | a :: as, b :: bs => a = b && startsWithChars as bs

/-- Split a character list at every separator, keeping empty pieces
(Go `strings.Split` / the split underlying `strings.FieldsFunc`). -/
def splitChars (s : List Char) (p : Char → Bool) : List (List Char) :=
  match s with
  | [] => [[]]
  | c :: rest =>
    if p c then [] :: splitChars rest p
    else
      match splitChars rest p with
      | [] => [[c]]
      | t :: ts => (c :: t) :: ts

/-- Go `strings.FieldsFunc`: split and drop the empty pieces. -/
def fieldsFunc (s : List Char) (p : Char → Bool) : List String :=
  ((splitChars s p).map String.mk).filter (fun f => f ≠ "")

/-- Go `strings.SplitN(s, sep, 2)` for a one-character separator. -/
def splitN2 (s : String) (c : Char) : List String :=
  match charIndex s.toList c with
  | none => [s]
  | some i => [String.mk (s.toList.take i), String.mk (s.toList.drop (i + 1))]

/-- The `urlInfo` structure (lines 425-431); the option map is an
association list with Go-map overwrite on duplicate keys. -/
structure UrlInfo where
  addrs : List String
  user : String
  pass : String
  db : String
  options : List (String × String)
deriving Repr, DecidableEq

/-- Go map assignment `m[k] = v`. -/
def mapInsert (m : List (String × String)) (k v : String) : List (String × String) :=
  if m.any (fun p => p.1 = k) then
    m.map (fun p => if p.1 = k then (k, v) else p)
  else m ++ [(k, v)]

/-- The option loop of `parseURL` (lines 438-446): each `key=value` pair
of the query section is entered into the map; anything else fails. -/
def parseOptionPairs (pairs : List String) (acc : List (String × String)) :
    Except String (List (String × String)) :=
  match pairs with
  | [] => .ok acc
  | pair :: rest =>
    match splitN2 pair '=' with
    | [k, v] =>
      if k = "" ∨ v = "" then
        .error ("Connection option must be key=value: " ++ pair)
      else
        parseOptionPairs rest (mapInsert acc k v)
    | _ => .error ("Connection option must be key=value: " ++ pair)

/-- `parseURL` (lines 433-463). -/
def parseURL (url0 : String) : Except String UrlInfo :=
  let url1 :=
    if startsWithChars url0.toList "mongodb://".toList then String.mk (url0.toList.drop 10)
    else url0
  let qStep : Except String (String × List (String × String)) :=
    match charIndex url1.toList '?' with
    | none => .ok (url1, [])
    | some c =>
      let pairs := fieldsFunc (url1.toList.drop (c + 1)) isOptSep
      match parseOptionPairs pairs [] with
      | .error e => .error e
      | .ok opts => .ok (String.mk (url1.toList.take c), opts)
  match qStep with
  | .error e => .error e
  | .ok (url2, opts) =>
    let credStep : Except String (String × String × String) :=
      match charIndex url2.toList '@' with
      | none => .ok (url2, "", "")
      | some c =>
        let cred := String.mk (url2.toList.take c)
        match splitN2 cred ':' with
        | [u, p] =>
          if u = "" then .error ("Credentials must be provided as user:pass@host")
          else .ok (String.mk (url2.toList.drop (c + 1)), u, p)
        | _ => .error ("Credentials must be provided as user:pass@host")
    match credStep with
    | .error e => .error e
    | .ok (url3, user, pass) =>
      let dbStep : String × String :=
        match charIndex url3.toList '/' with
        | none => (url3, "")
        | some c =>
          (String.mk (url3.toList.take c), String.mk (url3.toList.drop (c + 1)))
      .ok { addrs := (splitChars dbStep.1.toList (fun c => c = ',')).map String.mk
            user := user, pass := pass, db := dbStep.2, options := opts }

/-- One iteration of the option loop of `DialWithTimeout`
(lines 321-336): `.ok true` means the pair enabled direct mode;
`connect=replicaSet` is accepted and ignored; everything else is an
unsupported option. -/
def checkOption (k v : String) : Except String Bool :=
  if k = "connect" ∧ v = "direct" then .ok true
  else if k = "connect" ∧ v = "replicaSet" then .ok false
  else .error ("Unsupported connection URL option: " ++ k ++ "=" ++ v)

/-- The whole option loop of `DialWithTimeout`: an error on any
unsupported pair, otherwise the computed `direct` flag.  (Go iterates the
map in unspecified order; only the error message can differ.) -/
def checkOptions : List (String × String) → Except String Bool
  | [] => .ok false
  | kv :: rest =>
    match checkOption kv.1 kv.2 with
    | .error e => .error e
    | .ok d =>
      match checkOptions rest with
      | .error e => .error e
      | .ok d2 => .ok (d || d2)

/-- The part of `DialWithTimeout` (lines 316-346) that decides between
"error" and "proceed to dial a session": parse the URL, then vet every
connection option; on success the returned flag is the `Direct` field of
the `DialInfo` passed on. -/
def dialOptionsCheck (url : String) : Except String Bool :=
  match parseURL url with
  | .error e => .error e
  | .ok info => checkOptions info.options

deriving instance DecidableEq for Except

/-- An option pair the option loop of `DialWithTimeout` accepts. -/
def supportedOpt (p : String × String) : Prop :=
  p = ("connect", "direct") ∨ p = ("connect", "replicaSet")

instance (p : String × String) : Decidable (supportedOpt p) := by
  unfold supportedOpt; infer_instance

/-- A query-section fragment that is not of the `key=value` form
(`parseURL` lines 440-443 reject it). -/
def malformedPair (pair : String) : Bool :=
  match splitN2 pair '=' with
  | [k, v] => k = "" || v = ""
  | _ => true

/-- The evolution relation the merged acknowledgement spec satisfies along
any `EnsureSafe` trace. -/
def safeEvolves (a b : Option SafeQueryOp) : Prop :=
  (∀ n n2, cmdNumW a = some n → cmdNumW b = some n2 → n ≤ n2) ∧
  (∀ n, cmdNumW a = some n →
    (∃ n2, cmdNumW b = some n2) ∨ (∃ m, cmdMode b = some m)) ∧
  (∀ m, cmdMode a = some m → ∃ m2, cmdMode b = some m2) ∧
  (cmdFSync a = true → cmdFSync b = true) ∧
  (cmdFSync a = true → cmdJ a = false → cmdFSync b = true ∧ cmdJ b = false) ∧
  (∀ t, cmdWTimeout a = some t → ∃ t2, cmdWTimeout b = some t2 ∧ t2 ≤ t)

/-! ## Helper lemmas -/

theorem int32cast_eq_self (n : Int) (h1 : -(2 ^ 31) ≤ n) (h2 : n < 2 ^ 31) :
    int32cast n = n := by
  unfold int32cast
  have h3 : (0 : Int) ≤ n + 2 ^ 31 := by omega
  have h4 : n + 2 ^ 31 < 2 ^ 32 := by omega
  rw [Int.emod_eq_of_lt h3 h4]
  omega

theorem safeEvolves_refl (a : Option SafeQueryOp) : safeEvolves a a := by
  refine ⟨?_, ?_, ?_, ?_, ?_, ?_⟩
  · intro n n2 h1 h2; rw [h1] at h2; exact le_of_eq (Option.some_injective _ h2)
  · intro n h; exact Or.inl ⟨n, h⟩
  · intro m h; exact ⟨m, h⟩
  · exact id
  · intro h1 h2; exact ⟨h1, h2⟩
  · intro t h; exact ⟨t, h, le_refl t⟩

theorem safeEvolves_trans {a b c : Option SafeQueryOp}
    (hab : safeEvolves a b) (hbc : safeEvolves b c) : safeEvolves a c := by
  obtain ⟨ab1, ab2, ab3, ab4, ab5, ab6⟩ := hab
  obtain ⟨bc1, bc2, bc3, bc4, bc5, bc6⟩ := hbc
  refine ⟨?_, ?_, ?_, ?_, ?_, ?_⟩
  · intro n n2 ha hc
    rcases ab2 n ha with ⟨nb, hb⟩ | ⟨m, hb⟩
    · exact le_trans (ab1 n nb ha hb) (bc1 nb n2 hb hc)
    · obtain ⟨m2, hm2⟩ := bc3 m hb
      exfalso
      cases c with
      | none => simp [cmdMode] at hm2
      | some op =>
        simp only [cmdMode, cmdNumW] at hm2 hc
        cases hW : op.query.W with
        | none => simp [hW] at hc
        | some v =>
          cases v with
          | wMode s => simp [hW] at hc
          | wNum k => simp [hW] at hm2
  · intro n ha
    rcases ab2 n ha with ⟨nb, hb⟩ | ⟨m, hb⟩
    · exact bc2 nb hb
    · obtain ⟨m2, hm2⟩ := bc3 m hb
      exact Or.inr ⟨m2, hm2⟩
  · intro m ha
    obtain ⟨m2, hb⟩ := ab3 m ha
    exact bc3 m2 hb
  · exact fun h => bc4 (ab4 h)
  · intro h1 h2
    obtain ⟨h3, h4⟩ := ab5 h1 h2
    exact bc5 h3 h4
  · intro t ha
    obtain ⟨t2, hb, hle⟩ := ab6 t ha
    obtain ⟨t3, hc, hle2⟩ := bc6 t2 hb
    exact ⟨t3, hc, le_trans hle2 hle⟩

theorem ensureSafe_step_evolves (a : Option SafeQueryOp) (sf : Option Safe) :
    safeEvolves a (ensureSafe a sf) := by
  cases sf with
  | none => exact safeEvolves_refl a
  | some s =>
    cases a with
    | none =>
      refine ⟨?_, ?_, ?_, ?_, ?_, ?_⟩ <;> intro h <;> simp [cmdNumW, cmdMode, cmdFSync, cmdWTimeout] at *
    | some op =>
      refine ⟨?_, ?_, ?_, ?_, ?_, ?_⟩
      · intro n n2 ha hc
        cases hW : op.query.W with
        | none => simp [cmdNumW, hW] at ha
        | some v =>
          cases v with
          | wMode m => simp [cmdNumW, hW] at ha
          | wNum i =>
            by_cases hm : s.WMode = "" <;>
              by_cases hgt : s.W > i <;>
                simp [cmdNumW, ensureSafe, mergeW, hW, hm, hgt] at ha hc <;>
                  omega
      · intro n ha
        cases hW : op.query.W with
        | none => simp [cmdNumW, hW] at ha
        | some v =>
          cases v with
          | wMode m => simp [cmdNumW, hW] at ha
          | wNum i =>
            by_cases hm : s.WMode = "" <;>
              by_cases hgt : s.W > i <;>
                simp [cmdNumW, cmdMode, ensureSafe, mergeW, hW, hm, hgt]
      · intro m ha
        cases hW : op.query.W with
        | none => simp [cmdMode, hW] at ha
        | some v =>
          cases v with
          | wNum i => simp [cmdMode, hW] at ha
          | wMode m2 =>
            by_cases hm : s.WMode = "" <;>
              simp [cmdMode, ensureSafe, mergeW, hW, hm]
      · intro h
        by_cases hf : s.FSync <;>
          simp_all [cmdFSync, ensureSafe]
      · intro h1 h2
        by_cases hf : s.FSync <;>
          simp_all [cmdFSync, cmdJ, ensureSafe]
      · intro t ha
        have ht : op.query.WTimeout = t := by
          simpa [cmdWTimeout] using ha
        by_cases hc : s.WTimeout > 0 ∧ s.WTimeout < op.query.WTimeout <;>
          · simp [cmdWTimeout, ensureSafe, hc]
            omega

theorem ensureSafeRun_evolves (a : Option SafeQueryOp) (l : List (Option Safe)) :
    safeEvolves a (ensureSafeRun a l) := by
  induction l generalizing a with
  | nil => exact safeEvolves_refl a
  | cons sf rest ih =>
    have h1 : ensureSafeRun a (sf :: rest) = ensureSafeRun (ensureSafe a sf) rest := by
      simp [ensureSafeRun, List.foldl_cons]
    rw [h1]
    exact safeEvolves_trans (ensureSafe_step_evolves a sf) (ih (ensureSafe a sf))

theorem ensureSafe_mode_wins (a : Option SafeQueryOp) (s : Safe) (h : s.WMode ≠ "") :
    cmdMode (ensureSafe a (some s)) = some s.WMode := by
  cases a with
  | none => simp [ensureSafe, cmdMode, safeW, h]
  | some op =>
    simp only [ensureSafe, cmdMode, mergeW]
    cases hW : op.query.W with
    | none => simp [safeW, h]
    | some v => cases v <;> simp [h]

theorem ensureSafe_fsync_forces (op : SafeQueryOp) (s : Safe) (h : s.FSync = true) :
    cmdFSync (ensureSafe (some op) (some s)) = true ∧
    cmdJ (ensureSafe (some op) (some s)) = false := by
  simp [ensureSafe, cmdFSync, cmdJ, h]

theorem ensureSafe_timeout_wins (op : SafeQueryOp) (s : Safe)
    (h1 : 0 < s.WTimeout) (h2 : s.WTimeout < op.query.WTimeout) :
    cmdWTimeout (ensureSafe (some op) (some s)) = some s.WTimeout := by
  simp only [ensureSafe, cmdWTimeout]
  congr 1
  simp only [gt_iff_lt]
  rw [if_pos ⟨h1, h2⟩]

/-! ## Claim theorems -/

/-- C2: for every integer `n` in the 32-bit range of the `Limit` policy,
`Query.Limit(n)` sets `(q.limit, q.op.limit)` to `(1, -1)` for `n = 1`
(single document, single batch, server-side close); to
`(MaxInt32, MinInt32+1)` for the most negative 32-bit value, avoiding the
sign overflow of `-n`; to `(-n, n)` for any other negative `n` (one batch
of that magnitude, implicit close); and to `(n, n)` for `n > 1`, the
client-side soft cap. -/
theorem C2_queryLimit_cases (n : Int) (h1 : minInt32 ≤ n) (h2 : n ≤ maxInt32) :
    (n = 1 → queryLimit n = { limit := 1, opLimit := -1 }) ∧
    (n = minInt32 → queryLimit n = { limit := maxInt32, opLimit := minInt32 + 1 }) ∧
    (n < 0 → n ≠ minInt32 → queryLimit n = { limit := -n, opLimit := n }) ∧
    (1 < n → queryLimit n = { limit := n, opLimit := n }) := by
  simp only [minInt32, maxInt32] at h1 h2
  refine ⟨?_, ?_, ?_, ?_⟩
  · rintro rfl; decide
  · rintro rfl; decide
  · intro hneg hne
    have hne1 : n ≠ 1 := by omega
    have hnem : n ≠ minInt32 := hne
    simp only [queryLimit, if_neg hne1, if_neg hnem, if_pos hneg]
    have e1 : int32cast (-n) = -n := by
      apply int32cast_eq_self <;> simp only [minInt32] at hne <;> omega
    have e2 : int32cast n = n := by
      apply int32cast_eq_self <;> omega
    rw [e1, e2]
  · intro hgt
    have hne1 : n ≠ 1 := by omega
    have hnem : n ≠ minInt32 := by simp only [minInt32]; omega
    have hnneg : ¬ n < 0 := by omega
    simp only [queryLimit, if_neg hne1, if_neg hnem, if_neg hnneg]
    have e : int32cast n = n := by
      apply int32cast_eq_self <;> omega
    rw [e]

/-- Witness for C2 at `n = -5`, `n = 5`, `n = 1`, and `n = MinInt32`. -/
theorem C2_queryLimit_cases_witness :
    queryLimit 1 = { limit := 1, opLimit := -1 } ∧
    queryLimit minInt32 = { limit := maxInt32, opLimit := minInt32 + 1 } ∧
    queryLimit (-5) = { limit := 5, opLimit := -5 } ∧
    queryLimit 5 = { limit := 5, opLimit := 5 } :=
  ⟨(C2_queryLimit_cases 1 (by decide) (by decide)).1 rfl,
   (C2_queryLimit_cases minInt32 (by decide) (by decide)).2.1 rfl,
   (C2_queryLimit_cases (-5) (by decide) (by decide)).2.2.1 (by decide) (by decide),
   (C2_queryLimit_cases 5 (by decide) (by decide)).2.2.2 (by decide)⟩

/-- C10: `Query.Batch(1)` and `Session.SetBatch(1)` silently store a wire
batch size of 2 (a wire batch of 1 would make the server close the
cursor); every other 32-bit argument is stored unchanged. -/
theorem C10_batchStore (n : Int) (h1 : -(2 ^ 31) ≤ n) (h2 : n < 2 ^ 31) :
    batchStore 1 = 2 ∧ (n ≠ 1 → batchStore n = n) := by
  constructor
  · decide
  · intro hne
    simp only [batchStore, if_neg hne]
    exact int32cast_eq_self n h1 h2

/-- Witness for C10 at `n = 7`. -/
theorem C10_batchStore_witness : batchStore 1 = 2 ∧ batchStore 7 = 7 :=
  ⟨(C10_batchStore 7 (by decide) (by decide)).1,
   (C10_batchStore 7 (by decide) (by decide)).2 (by decide)⟩

/-- C3 counterexample: a safe write against the database `mydb` sends its
acknowledgement command scoped to `mydb.$cmd`, which is neither the
`admin` database nor the `local` database, contradicting the claimed
`admin` scoping. -/
theorem C3_counterexample :
    (writeQuery "mydb" initialSafeOp).sent =
      [WireOp.writeOp, WireOp.getLastErrorOp "mydb.$cmd"] ∧
    ("mydb.$cmd" : String) ≠ "admin.$cmd" ∧
    ("mydb.$cmd" : String) ≠ "local.$cmd" := by
  refine ⟨?_, by decide, by decide⟩
  rfl

/-- C3 (amended): for every mutating operation dispatched through
`writeQuery` with a configured acknowledgement spec, a synthetic
getLastError command scoped to the write's own database
(`dbname + ".$cmd"`) is sent on the same socket as the write and the call
blocks for the reply; with no spec the write is sent alone and the call
returns immediately; writes against the `local` database additionally
allow the socket acquisition to use a secondary (`slaveOk` is
`dbname == "local"`). -/
theorem C3_writeQuery_dispatch (dbname : String) (safeOp : Option SafeQueryOp) :
    (safeOp = none →
      writeQuery dbname safeOp =
        { acquireSlaveOk := dbname = "local"
          sent := [.writeOp]
          blocksForReply := false }) ∧
    (∀ op, safeOp = some op →
      writeQuery dbname safeOp =
        { acquireSlaveOk := dbname = "local"
          sent := [.writeOp, .getLastErrorOp (dbname ++ ".$cmd")]
          blocksForReply := true }) := by
  constructor
  · rintro rfl; rfl
  · rintro op rfl; rfl

/-- Witness for C3 at a fire-and-forget write on `local` and a safe write
on `mydb`. -/
theorem C3_writeQuery_dispatch_witness :
    writeQuery "local" none =
      { acquireSlaveOk := true, sent := [.writeOp], blocksForReply := false } ∧
    writeQuery "mydb" initialSafeOp =
      { acquireSlaveOk := false
        sent := [.writeOp, .getLastErrorOp "mydb.$cmd"]
        blocksForReply := true } := by
  constructor
  · have h := (C3_writeQuery_dispatch "local" none).1 rfl
    rw [h]; decide
  · have h := (C3_writeQuery_dispatch "mydb" initialSafeOp).2
      { query := { W := none, WTimeout := 0, FSync := false, J := false }
        collection := "admin.$cmd", limit := -1 } (by decide)
    rw [h]; decide

/-- C4: `SetMode(Strong, refresh=true)` on a session previously in
`Eventual` mode releases any reserved master or slave sockets, resets
`slaveOk` to the mode's default `false`, and the next read's socket
acquisition requests a non-secondary socket from the cluster — which, by
the collaborator contract, is a primary — even if a secondary socket was
previously reserved. -/
theorem C4_setMode_strong_refresh (s : SessionSockets)
    (_h : s.consistency = Mode.Eventual) :
    (setMode s .Strong true).1.masterSocket = none ∧
    (setMode s .Strong true).1.slaveSocket = none ∧
    (setMode s .Strong true).1.slaveOk = false ∧
    (setMode s .Strong true).2 = s.masterSocket.toList ++ s.slaveSocket.toList ∧
    acquireSocketSource (setMode s .Strong true).1 true = .fromCluster false ∧
    clusterGivesPrimary false = true := by
  refine ⟨rfl, rfl, rfl, rfl, ?_, by decide⟩
  simp [setMode, acquireSocketSource]

/-- Witness for C4: a session in `Eventual` mode with a reserved
secondary socket (id 5). -/
theorem C4_setMode_strong_refresh_witness :
    (setMode { masterSocket := none, slaveSocket := some 5, slaveOk := true
               consistency := .Eventual } .Strong true).2 = [5] ∧
    acquireSocketSource
      (setMode { masterSocket := none, slaveSocket := some 5, slaveOk := true
                 consistency := .Eventual } .Strong true).1 true = .fromCluster false := by
  have h := C4_setMode_strong_refresh
    { masterSocket := none, slaveSocket := some 5, slaveOk := true
      consistency := .Eventual } rfl
  exact ⟨h.2.2.2.1, h.2.2.2.2.1⟩

/-- C5: `Iter.Close` is idempotent — the second call returns the same
error value and sends no further kill request (the first call zeroes the
cursor id, and a zero cursor id makes the kill a no-op); at most one
kill-cursors request is issued in total; and both `Close` and `Err`
report the not-found sentinel as success. -/
theorem C5_close_idempotent (st : IterState) (o1 o2 : SocketAttempt) :
    (iterClose st o1).ret = (iterClose (iterClose st o1).st o2).ret ∧
    (iterClose (iterClose st o1).st o2).killRequests = [] ∧
    (iterClose st o1).killRequests.length ≤ 1 ∧
    (st.cursorId = 0 →
      killCursor st o1 = { st := st, ret := none, killRequests := [] }) ∧
    ((iterClose st o1).st.err = some .errNotFound → (iterClose st o1).ret = none) ∧
    (st.err = some .errNotFound → iterErr st = none) := by
  by_cases hc : st.cursorId = 0
  · cases o1 <;> cases o2 <;>
      simp_all [iterClose, killCursor, iterErr]
  · cases o1 <;> cases o2 <;>
      simp_all [iterClose, killCursor, iterErr]

/-- Witness for C5: a live cursor (id 7) killed once; the failed-acquire
second attempt changes nothing. -/
theorem C5_close_idempotent_witness :
    (iterClose
      { docData := [], err := none, cursorId := 7, limit := 0, opLimit := 0
        docsToReceive := 0, docsBeforeMore := 0, timeout := -1, timedout := false }
      .sent).killRequests = [7] ∧
    (iterClose
      (iterClose
        { docData := [], err := none, cursorId := 7, limit := 0, opLimit := 0
          docsToReceive := 0, docsBeforeMore := 0, timeout := -1, timedout := false }
        .sent).st (.acquireFailed (.other "down"))).killRequests = [] ∧
    iterErr
      { docData := [], err := some .errNotFound, cursorId := 0, limit := 0, opLimit := 0
        docsToReceive := 0, docsBeforeMore := 0, timeout := -1, timedout := false } = none := by
  refine ⟨by decide, ?_, ?_⟩
  · exact (C5_close_idempotent
      { docData := [], err := none, cursorId := 7, limit := 0, opLimit := 0
        docsToReceive := 0, docsBeforeMore := 0, timeout := -1, timedout := false }
      .sent (.acquireFailed (.other "down"))).2.1
  · exact (C5_close_idempotent
      { docData := [], err := some .errNotFound, cursorId := 0, limit := 0, opLimit := 0
        docsToReceive := 0, docsBeforeMore := 0, timeout := -1, timedout := false }
      .sent .sent).2.2.2.2.2 rfl

/-- C6: in the yield phase of `Iter.Next`, with a client-visible limit
set, popping a document decrements the limit counter; when it reaches
zero with the queue now empty, the not-found sentinel is latched and an
explicit cursor-kill is forced even though the server cursor is alive
(the final document is still yielded); and documents remaining in the
queue after exhaustion are a programming error — a panic. -/
theorem getMore_limit (st : IterState) (a : SocketAttempt) :
    (getMore st a).limit = st.limit := by
  cases a <;> simp only [getMore] <;> split_ifs <;> rfl

theorem nextYieldTail_result (st : IterState) (doc : Nat) (gA : SocketAttempt)
    (kills : List Int) : (nextYieldTail st doc gA kills).result = .yielded doc := rfl

theorem nextYieldTail_kills (st : IterState) (doc : Nat) (gA : SocketAttempt)
    (kills : List Int) : (nextYieldTail st doc gA kills).killRequests = kills := rfl

theorem nextYieldTail_limit (st : IterState) (doc : Nat) (gA : SocketAttempt)
    (kills : List Int) : (nextYieldTail st doc gA kills).st.limit = st.limit := by
  by_cases h : st.cursorId ≠ 0 ∧ st.err = none
  · simp only [nextYieldTail, if_pos h]
    by_cases h2 : st.docsBeforeMore = 0
    · simp only [if_pos h2]
      exact getMore_limit st gA
    · simp only [if_neg h2]
  · simp only [nextYieldTail, if_neg h]

theorem killCursor_limit (st : IterState) (a : SocketAttempt) :
    (killCursor st a).st.limit = st.limit := by
  by_cases h : st.cursorId ≠ 0
  · simp only [killCursor, if_pos h]
  · simp only [killCursor, if_neg h]

theorem C6_next_limit (st : IterState) (doc : Nat) (rest : List Nat)
    (kA gA : SocketAttempt) (hq : st.docData = doc :: rest) :
    (0 < st.limit → (nextAfterWait st kA gA).st.limit = st.limit - 1) ∧
    (1 < st.limit →
      (nextAfterWait st kA gA).result = .yielded doc ∧
      (nextAfterWait st kA gA).killRequests = []) ∧
    (st.limit = 1 → rest ≠ [] →
      nextAfterWait st kA gA =
        { result := .panicked rest.length
          st := { st with docData := rest, limit := 0 }
          killRequests := [] }) ∧
    (st.limit = 1 → rest = [] → kA = .sent →
      (nextAfterWait st kA gA).st.err = some .errNotFound ∧
      (nextAfterWait st kA gA).st.cursorId = 0 ∧
      (nextAfterWait st kA gA).result = .yielded doc ∧
      (st.cursorId ≠ 0 → (nextAfterWait st kA gA).killRequests = [st.cursorId])) := by
  by_cases h1 : st.limit = 1
  · rcases hr : rest with _ | ⟨d2, rest2⟩
    · -- limit exhausts with nothing left queued: sentinel + cursor kill
      subst hr
      have key : nextAfterWait st kA gA =
          let st3 : IterState :=
            { st with docData := [], limit := 0, err := some .errNotFound }
          let k := killCursor st3 kA
          if k.ret.isSome then
            { result := .noMore, st := k.st, killRequests := k.killRequests }
          else
            nextYieldTail k.st doc gA k.killRequests := by
        simp [nextAfterWait, hq, h1]
      refine ⟨?_, by omega, by simp, ?_⟩
      · intro _
        rw [key, h1]
        simp only []
        split_ifs
        · rw [killCursor_limit]; show (0 : Int) = 1 - 1; decide
        · rw [nextYieldTail_limit, killCursor_limit]; show (0 : Int) = 1 - 1; decide
      · intro _ _ hkA
        subst hkA
        rw [key]
        by_cases hcid : st.cursorId = 0
        · simp [killCursor, hcid, nextYieldTail]
        · simp [killCursor, hcid, nextYieldTail]
    · -- limit exhausts with documents still queued: panic
      subst hr
      have key : nextAfterWait st kA gA =
          { result := .panicked (d2 :: rest2).length
            st := { st with docData := d2 :: rest2, limit := 0 }
            killRequests := [] } := by
        simp [nextAfterWait, hq, h1]
      refine ⟨fun _ => by rw [key]; simp [h1], by omega, fun _ _ => key, by simp⟩
  · by_cases hpos : 0 < st.limit
    · -- limit still positive after the decrement: plain yield
      have hgt : 1 < st.limit := by omega
      have hne0 : ¬ st.limit - 1 = 0 := by omega
      have key : nextAfterWait st kA gA =
          nextYieldTail { st with docData := rest, limit := st.limit - 1 } doc gA [] := by
        simp [nextAfterWait, hq, hpos, hne0]
      refine ⟨?_, ?_, by omega, by omega⟩
      · intro _
        rw [key, nextYieldTail_limit]
      · intro _
        rw [key]
        exact ⟨nextYieldTail_result _ _ _ _, nextYieldTail_kills _ _ _ _⟩
    · -- no client-side limit
      refine ⟨by omega, by omega, by omega, by omega⟩

/-- Witness for C6 at a two-document queue with limit 2, and a
one-document queue with limit 1 on a live cursor (id 9). -/
theorem C6_next_limit_witness :
    (nextAfterWait
      { docData := [4, 5], err := none, cursorId := 9, limit := 2, opLimit := 2
        docsToReceive := 0, docsBeforeMore := 5, timeout := -1, timedout := false }
      .sent .sent).st.limit = 1 ∧
    (nextAfterWait
      { docData := [4], err := none, cursorId := 9, limit := 1, opLimit := 2
        docsToReceive := 0, docsBeforeMore := 5, timeout := -1, timedout := false }
      .sent .sent).killRequests = [9] := by
  constructor
  · exact (C6_next_limit
      { docData := [4, 5], err := none, cursorId := 9, limit := 2, opLimit := 2
        docsToReceive := 0, docsBeforeMore := 5, timeout := -1, timedout := false }
      4 [5] .sent .sent rfl).1 (by decide)
  · exact ((C6_next_limit
      { docData := [4], err := none, cursorId := 9, limit := 1, opLimit := 2
        docsToReceive := 0, docsBeforeMore := 5, timeout := -1, timedout := false }
      4 [] .sent .sent rfl).2.2.2 rfl rfl rfl).2.2.2 (by decide)

/-- C7: for a tailable cursor with a finite timeout, an expired deadline
inside the wait loop makes `Next` return false with the timed-out flag
set (`Timeout()` then reports true) while the cursor id and the terminal
error are untouched; the next `Next` call clears the flag on entry and,
the cursor id being non-zero, re-enters the wait loop at the current
position instead of reporting exhaustion. -/
theorem C7_tail_timeout_resume (st : IterState) (h1 : nextLoopGuard st)
    (h2 : st.docsToReceive = 0) (h3 : 0 ≤ st.timeout) :
    nextTimeoutCheck st true = some (false, { st with timedout := true }) ∧
    ({ st with timedout := true } : IterState).cursorId = st.cursorId ∧
    ({ st with timedout := true } : IterState).err = none ∧
    iterTimeout { st with timedout := true } = true ∧
    nextEntry { st with timedout := true } = { st with timedout := false } ∧
    (st.cursorId ≠ 0 → nextLoopGuard (nextEntry { st with timedout := true })) := by
  obtain ⟨he, hd, _⟩ := h1
  refine ⟨?_, rfl, he, rfl, rfl, ?_⟩
  · simp [nextTimeoutCheck, h2, h3]
  · intro hcid
    exact ⟨he, hd, Or.inr hcid⟩

theorem checkOption_cases (k v : String) :
    (k = "connect" ∧ v = "direct" ∧ checkOption k v = .ok true) ∨
    (k = "connect" ∧ v = "replicaSet" ∧ checkOption k v = .ok false) ∨
    (¬ supportedOpt (k, v) ∧ ∃ e, checkOption k v = .error e) := by
  by_cases h1 : k = "connect" ∧ v = "direct"
  · exact Or.inl ⟨h1.1, h1.2, by simp [checkOption, h1]⟩
  · by_cases h2 : k = "connect" ∧ v = "replicaSet"
    · exact Or.inr (Or.inl ⟨h2.1, h2.2, by simp [checkOption, h1, h2]⟩)
    · refine Or.inr (Or.inr
        ⟨?_, "Unsupported connection URL option: " ++ k ++ "=" ++ v, ?_⟩)
      · rintro (h | h) <;> rw [Prod.ext_iff] at h <;> simp_all
      · unfold checkOption
        rw [if_neg h1, if_neg h2]

theorem checkOptions_isOk_iff (opts : List (String × String)) :
    (∃ b, checkOptions opts = .ok b) ↔ ∀ p ∈ opts, supportedOpt p := by
  induction opts with
  | nil => simp [checkOptions]
  | cons kv rest ih =>
    have hkv : kv = (kv.1, kv.2) := rfl
    rcases checkOption_cases kv.1 kv.2 with ⟨h1, h2, h3⟩ | ⟨h1, h2, h3⟩ | ⟨h1, h3⟩
    · have hsup : supportedOpt kv := Or.inl (by rw [hkv, h1, h2])
      simp only [checkOptions, h3, List.forall_mem_cons]
      cases hres : checkOptions rest with
      | error e =>
        simp only [hres]
        constructor
        · rintro ⟨b, hb⟩; exact absurd hb (by simp)
        · rintro ⟨_, hall⟩
          obtain ⟨b, hb⟩ := ih.mpr hall
          rw [hres] at hb; exact absurd hb (by simp)
      | ok d2 =>
        simp only [hres]
        constructor
        · intro _; exact ⟨hsup, ih.mp ⟨d2, hres⟩⟩
        · intro _; exact ⟨_, rfl⟩
    · have hsup : supportedOpt kv := Or.inr (by rw [hkv, h1, h2])
      simp only [checkOptions, h3, List.forall_mem_cons]
      cases hres : checkOptions rest with
      | error e =>
        simp only [hres]
        constructor
        · rintro ⟨b, hb⟩; exact absurd hb (by simp)
        · rintro ⟨_, hall⟩
          obtain ⟨b, hb⟩ := ih.mpr hall
          rw [hres] at hb; exact absurd hb (by simp)
      | ok d2 =>
        simp only [hres]
        constructor
        · intro _; exact ⟨hsup, ih.mp ⟨d2, hres⟩⟩
        · intro _; exact ⟨_, rfl⟩
    · obtain ⟨e, he⟩ := h3
      simp only [checkOptions, he, List.forall_mem_cons]
      constructor
      · rintro ⟨b, hb⟩; exact absurd hb (by simp)
      · rintro ⟨hsup, _⟩; exact absurd hsup h1

theorem checkOptions_direct_iff (opts : List (String × String)) :
    checkOptions opts = .ok true ↔
      (∀ p ∈ opts, supportedOpt p) ∧ ("connect", "direct") ∈ opts := by
  induction opts with
  | nil => simp [checkOptions]
  | cons kv rest ih =>
    have hkv : kv = (kv.1, kv.2) := rfl
    have hmemc : (("connect", "direct") ∈ kv :: rest) ↔
        ("connect", "direct") = kv ∨ ("connect", "direct") ∈ rest := List.mem_cons
    rcases checkOption_cases kv.1 kv.2 with ⟨h1, h2, h3⟩ | ⟨h1, h2, h3⟩ | ⟨h1, h3⟩
    · have hkvd : kv = ("connect", "direct") := by rw [hkv, h1, h2]
      have hsup : supportedOpt kv := Or.inl hkvd
      simp only [checkOptions, h3, List.forall_mem_cons, hmemc]
      cases hres : checkOptions rest with
      | error e =>
        simp only [hres]
        constructor
        · intro hb; exact absurd hb (by simp)
        · rintro ⟨⟨_, hall⟩, _⟩
          obtain ⟨b, hb⟩ := (checkOptions_isOk_iff rest).mpr hall
          rw [hres] at hb; exact absurd hb (by simp)
      | ok d2 =>
        simp only [hres, Bool.true_or]
        constructor
        · intro _
          exact ⟨⟨hsup, (checkOptions_isOk_iff rest).mp ⟨d2, hres⟩⟩, Or.inl hkvd.symm⟩
        · intro _; trivial
    · have hkvr : kv = ("connect", "replicaSet") := by rw [hkv, h1, h2]
      have hsup : supportedOpt kv := Or.inr hkvr
      have hkvnd : ("connect", "direct") ≠ kv := by rw [hkvr]; simp
      simp only [checkOptions, h3, List.forall_mem_cons, hmemc]
      cases hres : checkOptions rest with
      | error e =>
        simp only [hres]
        constructor
        · intro hb; exact absurd hb (by simp)
        · rintro ⟨⟨_, hall⟩, _⟩
          obtain ⟨b, hb⟩ := (checkOptions_isOk_iff rest).mpr hall
          rw [hres] at hb; exact absurd hb (by simp)
      | ok d2 =>
        simp only [hres, Bool.false_or]
        rw [hres] at ih
        constructor
        · intro hb
          rw [Except.ok.injEq] at hb
          obtain ⟨hall, hmem⟩ := ih.mp (by rw [hb])
          exact ⟨⟨hsup, hall⟩, Or.inr hmem⟩
        · rintro ⟨⟨_, hall⟩, hmem⟩
          rcases hmem with hmem | hmem
          · exact absurd hmem hkvnd
          · rw [ih.mpr ⟨hall, hmem⟩]
    · obtain ⟨e, he⟩ := h3
      simp only [checkOptions, he, List.forall_mem_cons]
      constructor
      · intro hb; exact absurd hb (by simp)
      · rintro ⟨⟨hsup, _⟩, _⟩; exact absurd hsup h1

theorem parseOptionPairs_malformed (pair : String) (rest : List String)
    (acc : List (String × String)) (h : malformedPair pair = true) :
    ∃ e, parseOptionPairs (pair :: rest) acc = .error e := by
  unfold malformedPair at h
  unfold parseOptionPairs
  cases hs : splitN2 pair '=' with
  | nil => simp [hs]
  | cons a t =>
    cases t with
    | nil => simp [hs]
    | cons b t2 =>
      cases t2 with
      | nil =>
        rw [hs] at h
        simp only [Bool.or_eq_true, decide_eq_true_eq] at h
        exact ⟨"Connection option must be key=value: " ++ pair, by simp [hs, h]⟩
      | cons c t3 => simp [hs]

/-- C9 counterexample: the connection string
`mongodb://host/?connect=replicaSet` carries an option pair other than
`connect=direct`, yet `DialWithTimeout` accepts it (no error; direct mode
stays off), contradicting the claim that every other option pair fails. -/
theorem C9_counterexample :
    dialOptionsCheck "mongodb://host/?connect=replicaSet" = .ok false := by
  decide

/-- C9 (amended): the option loop of `DialWithTimeout` succeeds exactly
when every option pair of the parsed connection string is
`connect=direct` or `connect=replicaSet` — any other pair makes it return
an error instead of a session; the resulting `Direct` flag (which
disables topology discovery) is set exactly when `connect=direct` is
among the options (`connect=replicaSet` is accepted as a no-op); and a
query-section fragment not of the `key=value` form already fails inside
`parseURL`. -/
theorem C9_dial_options (opts : List (String × String)) (pair : String)
    (rest : List String) (acc : List (String × String)) :
    ((∃ b, checkOptions opts = .ok b) ↔ ∀ p ∈ opts, supportedOpt p) ∧
    (checkOptions opts = .ok true ↔
      (∀ p ∈ opts, supportedOpt p) ∧ ("connect", "direct") ∈ opts) ∧
    (malformedPair pair = true →
      ∃ e, parseOptionPairs (pair :: rest) acc = .error e) :=
  ⟨checkOptions_isOk_iff opts, checkOptions_direct_iff opts,
   parseOptionPairs_malformed pair rest acc⟩

/-- Witness for C9: `foo=bar` is rejected, `connect=direct` turns direct
mode on, and the malformed fragment `x` fails the parse. -/
theorem C9_dial_options_witness :
    (¬ ∃ b, checkOptions [("foo", "bar")] = .ok b) ∧
    checkOptions [("connect", "direct")] = .ok true ∧
    (∃ e, parseOptionPairs ["x"] [] = .error e) := by
  refine ⟨?_, ?_, ?_⟩
  · intro hex
    have h := (C9_dial_options [("foo", "bar")] "x" [] []).1.mp hex
    exact absurd (h ("foo", "bar") (by decide)) (by decide)
  · exact (C9_dial_options [("connect", "direct")] "x" [] []).2.1.mpr
      ⟨by rintro p hp; rw [List.mem_singleton] at hp; exact Or.inl hp, by decide⟩
  · exact (C9_dial_options [] "x" [] []).2.2 (by decide)

/-- Witness for C7: a live tailable cursor (id 3) with a 2-second
timeout, empty queue, no outstanding batch. -/
theorem C7_tail_timeout_resume_witness :
    nextTimeoutCheck
      { docData := [], err := none, cursorId := 3, limit := 0, opLimit := 0
        docsToReceive := 0, docsBeforeMore := 0, timeout := 2000000000, timedout := false }
      true =
      some (false,
        { docData := [], err := none, cursorId := 3, limit := 0, opLimit := 0
          docsToReceive := 0, docsBeforeMore := 0, timeout := 2000000000, timedout := true }) ∧
    nextLoopGuard
      (nextEntry
        { docData := [], err := none, cursorId := 3, limit := 0, opLimit := 0
          docsToReceive := 0, docsBeforeMore := 0, timeout := 2000000000, timedout := true }) := by
  have h := C7_tail_timeout_resume
    { docData := [], err := none, cursorId := 3, limit := 0, opLimit := 0
      docsToReceive := 0, docsBeforeMore := 0, timeout := 2000000000, timedout := false }
    (by exact ⟨rfl, rfl, Or.inr (by decide)⟩) rfl (by decide)
  exact ⟨h.1, h.2.2.2.2.2 (by decide)⟩

/-- C8: with the index cache keyed by namespace + canonical name (the
`parseIndexKey` output), a successful `EnsureIndex` populates the cache,
so a second call with the same key issues no network request; `DropIndex`
evicts the entry before contacting the server, so — whatever the drop
outcome — a following `EnsureIndex` with the same key issues a new
creation request. -/
theorem C8_index_cache (cache : List String) (fullName : String) (key : List String)
    (name : String) (realKey : List (String × IndexOrd))
    (hp : parseIndexKey key = .ok (name, realKey)) (b2 : Bool) (dOk : Bool) :
    (ensureIndex cache fullName key true).ok = true ∧
    (fullName ++ nulSep ++ name) ∈ (ensureIndex cache fullName key true).cache ∧
    ensureIndex (ensureIndex cache fullName key true).cache fullName key b2 =
      { cache := (ensureIndex cache fullName key true).cache
        requests := 0, ok := true } ∧
    (dropIndex (ensureIndex cache fullName key true).cache fullName key dOk).cache =
      (ensureIndex cache fullName key true).cache.filter
        (fun k => k ≠ fullName ++ nulSep ++ name) ∧
    (fullName ++ nulSep ++ name) ∉
      (dropIndex (ensureIndex cache fullName key true).cache fullName key dOk).cache ∧
    (ensureIndex
      (dropIndex (ensureIndex cache fullName key true).cache fullName key dOk).cache
      fullName key true).requests = 1 := by
  have h1 : (ensureIndex cache fullName key true).ok = true ∧
      (fullName ++ nulSep ++ name) ∈ (ensureIndex cache fullName key true).cache := by
    simp only [ensureIndex, hp]
    by_cases hmem : (fullName ++ nulSep ++ name) ∈ cache
    · rw [if_pos hmem]
      exact ⟨rfl, hmem⟩
    · rw [if_neg hmem]
      exact ⟨rfl, by simp⟩
  obtain ⟨hok, hmem1⟩ := h1
  refine ⟨hok, hmem1, ?_⟩
  generalize hg : (ensureIndex cache fullName key true).cache = c1 at hmem1 ⊢
  have h2 : ensureIndex c1 fullName key b2 =
      { cache := c1, requests := 0, ok := true } := by
    simp only [ensureIndex, hp]
    rw [if_pos hmem1]
  have h3 : (dropIndex c1 fullName key dOk).cache =
      c1.filter (fun k => k ≠ fullName ++ nulSep ++ name) := by
    simp only [dropIndex, hp]
  have h4 : (fullName ++ nulSep ++ name) ∉ (dropIndex c1 fullName key dOk).cache := by
    rw [h3]
    intro hmem
    rw [List.mem_filter] at hmem
    simp at hmem
  have h5 : (ensureIndex (dropIndex c1 fullName key dOk).cache fullName key true).requests = 1 := by
    simp only [ensureIndex, hp]
    rw [if_neg h4, if_pos trivial]
  exact ⟨h2, h3, h4, h5⟩

/-- Witness for C8: the collection `db.coll` with key `["name", "-age"]`,
whose canonical index name is `name_1_age_-1`. -/
theorem C8_index_cache_witness :
    parseIndexKey ["name", "-age"] =
      .ok ("name_1_age_-1", [("name", .num 1), ("age", .num (-1))]) ∧
    ensureIndex ["db.coll" ++ nulSep ++ "name_1_age_-1"] "db.coll" ["name", "-age"] false =
      { cache := ["db.coll" ++ nulSep ++ "name_1_age_-1"], requests := 0, ok := true } ∧
    (ensureIndex
      (dropIndex ["db.coll" ++ nulSep ++ "name_1_age_-1"] "db.coll" ["name", "-age"] false).cache
      "db.coll" ["name", "-age"] true).requests = 1 := by
  have h := C8_index_cache [] "db.coll" ["name", "-age"] "name_1_age_-1"
    [("name", .num 1), ("age", .num (-1))] (by decide) false false
  refine ⟨by decide, ?_, ?_⟩
  · have h2 := h.2.2.1
    have he : (ensureIndex [] "db.coll" ["name", "-age"] true).cache =
        ["db.coll" ++ nulSep ++ "name_1_age_-1"] := by decide
    rw [he] at h2
    exact h2
  · have h5 := h.2.2.2.2.2
    have he : (ensureIndex [] "db.coll" ["name", "-age"] true).cache =
        ["db.coll" ++ nulSep ++ "name_1_age_-1"] := by decide
    rw [he] at h5
    exact h5

/-- C1 counterexample: on a session whose acknowledgement spec was unset
(`SetSafe(nil)`), a single `EnsureSafe` call with both `FSync` and `J`
set copies both flags verbatim, so the merged spec has `FSync` set while
`J` is true — `FSync` did not force `J` to false. -/
theorem C1_counterexample :
    cmdFSync (ensureSafeRun none
      [some { W := 0, WMode := "", WTimeout := 0, FSync := true, J := true }]) = true ∧
    cmdJ (ensureSafeRun none
      [some { W := 0, WMode := "", WTimeout := 0, FSync := true, J := true }]) = true := by
  decide

/-- C1 (amended): along any sequence of `EnsureSafe` calls from any
session state, the numeric threshold W never decreases while it stays
numeric; a named mode, once set, is never overwritten by a numeric
threshold, and a later named mode always wins; FSync once set stays set,
and whenever a call sets FSync while a spec is already configured, J is
forced to false and stays false from then on (a first call on a session
with no configured spec instead copies FSync and J verbatim); and the
timeout of a configured spec never increases — a smaller positive
timeout always wins. -/
theorem C1_ensureSafe_monotone (st0 : Option SafeQueryOp) (l1 l2 : List (Option Safe)) :
    (∀ n n2, cmdNumW (ensureSafeRun st0 l1) = some n →
      cmdNumW (ensureSafeRun (ensureSafeRun st0 l1) l2) = some n2 → n ≤ n2) ∧
    (∀ m, cmdMode (ensureSafeRun st0 l1) = some m →
      ∃ m2, cmdMode (ensureSafeRun (ensureSafeRun st0 l1) l2) = some m2) ∧
    (∀ s : Safe, s.WMode ≠ "" →
      cmdMode (ensureSafe (ensureSafeRun st0 l1) (some s)) = some s.WMode) ∧
    (cmdFSync (ensureSafeRun st0 l1) = true →
      cmdFSync (ensureSafeRun (ensureSafeRun st0 l1) l2) = true) ∧
    (∀ op s, ensureSafeRun st0 l1 = some op → s.FSync = true →
      cmdFSync (ensureSafeRun (ensureSafe (ensureSafeRun st0 l1) (some s)) l2) = true ∧
      cmdJ (ensureSafeRun (ensureSafe (ensureSafeRun st0 l1) (some s)) l2) = false) ∧
    (∀ t, cmdWTimeout (ensureSafeRun st0 l1) = some t →
      ∃ t2, cmdWTimeout (ensureSafeRun (ensureSafeRun st0 l1) l2) = some t2 ∧ t2 ≤ t) ∧
    (∀ op s, ensureSafeRun st0 l1 = some op → 0 < s.WTimeout →
      s.WTimeout < op.query.WTimeout →
      cmdWTimeout (ensureSafe (ensureSafeRun st0 l1) (some s)) = some s.WTimeout) := by
  obtain ⟨e1, e2, e3, e4, e5, e6⟩ := ensureSafeRun_evolves (ensureSafeRun st0 l1) l2
  refine ⟨e1, e3, ?_, e4, ?_, e6, ?_⟩
  · intro s hs
    exact ensureSafe_mode_wins _ s hs
  · intro op s hop hF
    obtain ⟨f1, f2⟩ := ensureSafe_fsync_forces op s hF
    rw [hop]
    obtain ⟨g1, g2, g3, g4, g5, g6⟩ :=
      ensureSafeRun_evolves (ensureSafe (some op) (some s)) l2
    exact g5 f1 f2
  · intro op s hop ht1 ht2
    rw [hop]
    exact ensureSafe_timeout_wins op s ht1 ht2

/-- Witness for C1: starting from the fresh-session spec, `W` grows from
3 to 5 across two `EnsureSafe` calls. -/
theorem C1_ensureSafe_monotone_witness :
    cmdNumW (ensureSafeRun initialSafeOp
      [some { W := 3, WMode := "", WTimeout := 0, FSync := false, J := false }]) = some 3 ∧
    cmdNumW (ensureSafeRun
      (ensureSafeRun initialSafeOp
        [some { W := 3, WMode := "", WTimeout := 0, FSync := false, J := false }])
      [some { W := 5, WMode := "", WTimeout := 0, FSync := false, J := false }]) = some 5 ∧
    (3 : Int) ≤ 5 := by
  refine ⟨by decide, by decide, ?_⟩
  exact (C1_ensureSafe_monotone initialSafeOp
    [some { W := 3, WMode := "", WTimeout := 0, FSync := false, J := false }]
    [some { W := 5, WMode := "", WTimeout := 0, FSync := false, J := false }]).1
    3 5 (by decide) (by decide)

end Stats
